import Mathlib

/-!
Verification development for the Brainlot backend (Supabase edge functions).

The embedding below follows the TypeScript sources:
  * src/unnamed/part_004   - Gemini generation handler (global counter, quota,
                             in-memory MCQ cache, retrying Gemini client).
  * src/unnamed/part_005   - Groq generation handler with per-user quota.
  * src/backend/supabase/functions/generate-mcqs-groq/index.ts - Groq handler
                             (same client/extraction code as part_005).

External platform builtins (JSON.parse, String.prototype.match on the two fixed
regular expressions, Date.now) are modelled by executable Lean functions; the
database and network collaborators are inputs of the handler environment, as
the spec treats them as external capabilities.

Timestamps are modelled as natural numbers of milliseconds (JS Date.getTime).
-/

namespace Brainlot

/- ## JSON values

Model of the JavaScript values produced by JSON.parse.  Numbers are restricted
to integers, which covers every JSON document the generation pipeline
manipulates in the proofs below (answer_index values and the like). -/

inductive Json where
  | null : Json
  | bool (b : Bool) : Json
  | num (n : Int) : Json
  | str (s : String) : Json
  | arr (elems : List Json) : Json
  | obj (fields : List (String × Json)) : Json

/- ## Characters and whitespace -/

def isWsChar (c : Char) : Bool :=
  c = ' ' || c = '\n' || c = '\t' || c = '\r'

def skipWsL : List Char → List Char
  | [] => []
  | c :: cs => if isWsChar c then skipWsL cs else c :: cs

/-- Model of JS String.prototype.trim: drop leading and trailing
whitespace. -/
def trimStr (s : String) : String :=
  String.mk ((skipWsL ((skipWsL s.data).reverse)).reverse)

/- ## A model of JSON.parse

A fuelled recursive-descent parser for the JSON fragment used by the pipeline:
null, booleans, integers, escape-free strings, arrays and objects.  Returns
none exactly when JSON.parse would throw on such documents. -/

/-- Accumulating digit reader: reads a maximal nonempty digit prefix. -/
def readDigits (acc : Nat) : List Char → (Nat × List Char)
  | [] => (acc, [])
  | c :: cs =>
    if c.isDigit then readDigits (acc * 10 + (c.toNat - 48)) cs
    else (acc, c :: cs)

def parseNumber : List Char → Option (Int × List Char)
  | [] => none
  | '-' :: cs =>
    match cs with
    | c :: _ =>
      if c.isDigit then
        let (n, rest) := readDigits 0 cs
        some (-(Int.ofNat n), rest)
      else none
    | [] => none
  | c :: cs =>
    if c.isDigit then
      let (n, rest) := readDigits (c.toNat - 48) (cs)
      some (Int.ofNat n, rest)
    else none

/-- Reads characters of a string literal up to the closing quote
(escape sequences are outside the modelled fragment). -/
def readStringChars : List Char → Option (List Char × List Char)
  | [] => none
  | c :: cs =>
    if c = '"' then some ([], cs)
    else if c = '\\' then none
    else
      match readStringChars cs with
      | some (body, rest) => some (c :: body, rest)
      | none => none

def parseStringLit : List Char → Option (String × List Char)
  | [] => none
  | c :: cs =>
    if c = '"' then
      match readStringChars cs with
      | some (body, rest) => some (String.mk body, rest)
      | none => none
    else none

def litConsume : List Char → List Char → Option (List Char)
  | [], cs => some cs
  | l :: ls, c :: cs => if c = l then litConsume ls cs else none
  | _ :: _, [] => none

mutual

def parseValue : Nat → List Char → Option (Json × List Char)
  | 0, _ => none
  | Nat.succ fuel, cs =>
    match skipWsL cs with
    | [] => none
    | c :: rest =>
      if c = '[' then
        match skipWsL rest with
        | ']' :: rest2 => some (Json.arr [], rest2)
        | rest2 => match parseArrayItems fuel rest2 with
          | some (elems, rest3) => some (Json.arr elems, rest3)
          | none => none
      else if c = '{' then
        match skipWsL rest with
        | '}' :: rest2 => some (Json.obj [], rest2)
        | rest2 => match parseObjItems fuel rest2 with
          | some (fields, rest3) => some (Json.obj fields, rest3)
          | none => none
      else if c = '"' then
        match parseStringLit (c :: rest) with
        | some (s, rest2) => some (Json.str s, rest2)
        | none => none
      else
        match litConsume ['n','u','l','l'] (c :: rest) with
        | some rest2 => some (Json.null, rest2)
        | none =>
          match litConsume ['t','r','u','e'] (c :: rest) with
          | some rest2 => some (Json.bool true, rest2)
          | none =>
            match litConsume ['f','a','l','s','e'] (c :: rest) with
            | some rest2 => some (Json.bool false, rest2)
            | none =>
              match parseNumber (c :: rest) with
              | some (n, rest2) => some (Json.num n, rest2)
              | none => none

def parseArrayItems : Nat → List Char → Option (List Json × List Char)
  | 0, _ => none
  | Nat.succ fuel, cs =>
    match parseValue fuel cs with
    | none => none
    | some (v, rest) =>
      match skipWsL rest with
      | ',' :: rest2 =>
        match parseArrayItems fuel rest2 with
        | some (vs, rest3) => some (v :: vs, rest3)
        | none => none
      | ']' :: rest2 => some ([v], rest2)
      | _ => none

def parseObjItems : Nat → List Char → Option (List (String × Json) × List Char)
  | 0, _ => none
  | Nat.succ fuel, cs =>
    match parseStringLit (skipWsL cs) with
    | none => none
    | some (key, rest) =>
      match skipWsL rest with
      | ':' :: rest2 =>
        match parseValue fuel rest2 with
        | none => none
        | some (v, rest3) =>
          match skipWsL rest3 with
          | ',' :: rest4 =>
            match parseObjItems fuel rest4 with
            | some (fs, rest5) => some ((key, v) :: fs, rest5)
            | none => none
          | '}' :: rest4 => some ([(key, v)], rest4)
          | _ => none
      | _ => none

end

/-- Model of the platform builtin JSON.parse: succeeds iff the whole input is a
single JSON document of the modelled fragment (possibly surrounded by
whitespace). -/
def jsonParse (s : String) : Option Json :=
  match parseValue (s.length + 1) s.data with
  | some (v, rest) =>
    match skipWsL rest with
    | [] => some v
    | _ :: _ => none
  | none => none

/- ## Subscription tiers and per-user quota (part_004 / part_005) -/

inductive Tier where
  | FREE : Tier
  | PRO : Tier
deriving DecidableEq, Repr

/-- USER_LIMITS from part_004 / part_005: daily_limit per tier. -/
def daily_limit : Tier → Nat
  | Tier.FREE => 5
  | Tier.PRO => 50

/-- A row of user_usage_stats as returned by getUserUsageStatsFromDB;
daily_reset_at is the getTime of the stored ISO timestamp. -/
structure UsageStats where
  uploads_today : Nat
  daily_reset_at : Nat
deriving DecidableEq, Repr

structure UserLimitCheck where
  allowed : Bool
  limitTypeDaily : Bool
  remaining : Nat
  resetTime : Nat
deriving DecidableEq, Repr

/-- checkUserLimits (part_004 lines 159-191, identical in part_005): the
database read getUserUsageStatsFromDB is abstracted into the usage argument. -/
def checkUserLimits (subscription : Tier) (usage : UsageStats) : UserLimitCheck :=
  let limits := daily_limit subscription
  if limits ≤ usage.uploads_today then
    { allowed := false, limitTypeDaily := true, remaining := 0,
      resetTime := usage.daily_reset_at }
  else
    { allowed := true, limitTypeDaily := false,
      remaining := limits - usage.uploads_today,
      resetTime := usage.daily_reset_at }

/- ## Global usage counter (part_004) -/

def MAX_GLOBAL_USAGE : Nat := 500000

def THIRTY_DAYS_MS : Nat := 30 * 24 * 60 * 60 * 1000

structure GlobalUsage where
  allowed : Bool
  remaining : Nat
  resetTime : Nat
deriving DecidableEq, Repr

/-- checkGlobalUsage (part_004 lines 42-64).  The module-level mutable
globalUsageCount / globalUsageResetTime are passed and returned explicitly:
the second and third components are their values after the lazy monthly
reset. -/
def checkGlobalUsage (globalUsageCount globalUsageResetTime now : Nat) :
    GlobalUsage × Nat × Nat :=
  let count := if globalUsageResetTime < now then 0 else globalUsageCount
  let reset := if globalUsageResetTime < now then now + THIRTY_DAYS_MS
               else globalUsageResetTime
  if MAX_GLOBAL_USAGE ≤ count then
    ({ allowed := false, remaining := 0, resetTime := reset }, count, reset)
  else
    ({ allowed := true, remaining := MAX_GLOBAL_USAGE - count,
       resetTime := reset }, count, reset)

/- ## Content hash (generateFileHash, part_004 lines 245-254) -/

/-- JS ToInt32 conversion (the effect of the bitwise operators in the hash). -/
def toInt32 (n : Int) : Int :=
  let m := n % 4294967296
  if 2147483648 ≤ m then m - 4294967296 else m

/-- One step of the loop body: hash = ((hash << 5) - hash) + char; hash &= hash. -/
def hashStep (h : Int) (c : Char) : Int :=
  toInt32 (toInt32 (h * 32) - h + Int.ofNat c.toNat)

def base36Digit (n : Nat) : Char :=
  if n < 10 then Char.ofNat (48 + n) else Char.ofNat (87 + n)

def natToBase36Aux : Nat → Nat → List Char → List Char
  | 0, _, acc => acc
  | Nat.succ fuel, n, acc =>
    if n = 0 then acc
    else natToBase36Aux fuel (n / 36) (base36Digit (n % 36) :: acc)

/-- Model of Number.prototype.toString(36) for a nonnegative integer. -/
def natToBase36 (n : Nat) : String :=
  if n = 0 then "0" else String.mk (natToBase36Aux (n + 1) n [])

/-- generateFileHash: the 32-bit rolling hash over the char codes of the
content, rendered as Math.abs(hash).toString(36). -/
def generateFileHash (fileData : String) : String :=
  let h := fileData.data.foldl hashStep 0
  natToBase36 h.natAbs

/- ## In-memory MCQ cache (part_004 lines 33-35, 259-292)

The JS Map is modelled as an association list; mapSet places the new binding
in front and drops the old one (the JS Map keeps the original slot instead,
but no operation of this module observes entry order, so the models agree on
get/delete/purge). -/

def CACHE_DURATION : Nat := 30 * 60 * 1000

structure CacheEntry where
  mcqs : List Json
  timestamp : Nat

def CacheMap : Type := List (String × CacheEntry)

def mapGet (m : CacheMap) (k : String) : Option CacheEntry :=
  match m with
  | [] => none
  | (k2, e) :: rest => if k2 = k then some e else mapGet rest k

def mapDelete (m : CacheMap) (k : String) : CacheMap :=
  m.filter (fun p => p.1 ≠ k)

def mapSet (m : CacheMap) (k : String) (e : CacheEntry) : CacheMap :=
  (k, e) :: mapDelete m k

/-- getCachedMCQs (part_004 lines 259-272); also returns the cache after the
opportunistic deletion of an expired entry. -/
def getCachedMCQs (cache : CacheMap) (fileHash : String) (now : Nat) :
    Option (List Json) × CacheMap :=
  match mapGet cache fileHash with
  | some cached =>
    if now - cached.timestamp < CACHE_DURATION then (some cached.mcqs, cache)
    else (none, mapDelete cache fileHash)
  | none => (none, cache)

/-- cacheMCQs (part_004 lines 277-292): store the entry, then purge expired
entries when the map holds more than 1000 of them. -/
def cacheMCQs (cache : CacheMap) (fileHash : String) (mcqs : List Json)
    (now : Nat) : CacheMap :=
  let stored := mapSet cache fileHash { mcqs := mcqs, timestamp := now }
  if 1000 < stored.length then
    stored.filter (fun p => ¬ (CACHE_DURATION < now - p.2.timestamp))
  else stored

/- ## Provider HTTP responses and nullish field access -/

/-- One HTTP response from the external provider: status code and body text.
A fetch-level network failure is outside the scenarios proved below, so every
attempt yields a response. -/
structure ProviderResp where
  status : Nat
  body : String
deriving DecidableEq, Repr

/-- JS Response.ok: status in the range 200-299. -/
def respOk (status : Nat) : Bool :=
  200 ≤ status && status ≤ 299

/-- Object field access j.k of optional chaining (none when j is not an
object or lacks the key). -/
def getField (j : Json) (k : String) : Option Json :=
  match j with
  | Json.obj fields =>
    match fields.find? (fun p => p.1 = k) with
    | some p => some p.2
    | none => none
  | _ => none

/-- Array index access j[i] of optional chaining. -/
def getIdx (j : Json) (i : Nat) : Option Json :=
  match j with
  | Json.arr elems => elems.get? i
  | _ => none

/-- Nullish adjustment: a JSON null behaves like undefined for the ?? operator. -/
def nullish (o : Option Json) : Option Json :=
  match o with
  | some Json.null => none
  | o => o

/-- The path data.choices?.[0]?.message?.content of the Groq client. -/
def groqContentPath (data : Json) : Option Json :=
  nullish ((getField data "choices").bind (fun c =>
    (getIdx c 0).bind (fun c0 =>
      (getField c0 "message").bind (fun m => getField m "content"))))

/-- Value of the source expression
  data.choices?.[0]?.message?.content
    ?? data.choices?.[0]?.message?.content?.[0]?.text ?? "[]"
(generate-mcqs-groq lines 88-91, part_005 lines 102-105).  Whenever the first
alternative is nullish the second one dereferences the same nullish content and
is nullish too, so the chain yields the content value when present and non-null
and the string "[]" otherwise. -/
def groqContentValue (data : Json) : Json :=
  match groqContentPath data with
  | some v => v
  | none => Json.str "[]"

/-- The path data.candidates?.[0]?.content?.parts?.[0]?.text ?? "[]" of the
Gemini client (part_004 lines 336-337). -/
def geminiContentValue (data : Json) : Json :=
  match nullish ((getField data "candidates").bind (fun c =>
    (getIdx c 0).bind (fun c0 =>
      (getField c0 "content").bind (fun ct =>
        (getField ct "parts").bind (fun p =>
          (getIdx p 0).bind (fun p0 => getField p0 "text")))))) with
  | some v => v
  | none => Json.str "[]"

/- ## Generation clients with bounded retry (callGroqWithText /
callGeminiWithText)

The fetch calls are abstracted into a function from the attempt number
(1-based) to the provider response.  The outcome records the attempts actually
issued and the setTimeout delays slept, in order. -/

inductive ClientOutcome where
  | success (content : Json) (calls : List Nat) (delays : List Nat) : ClientOutcome
  | failure (msg : String) (rawResponse : Option String)
      (statusCode : Option Nat) (calls : List Nat) (delays : List Nat) : ClientOutcome

def outcomeCalls : ClientOutcome → List Nat
  | ClientOutcome.success _ calls _ => calls
  | ClientOutcome.failure _ _ _ calls _ => calls

/-- The for-loop of callGroqWithText (generate-mcqs-groq lines 56-117,
part_005 lines 70-139).  A thrown error inside the try block reaches the
catch, which rethrows on the final attempt and otherwise sleeps 2000*attempt
and continues; a 5xx response with attempts left takes the explicit
early-continue branch.  The fuel counts the attempts still permitted and the
zero case is the fall-through after the loop (part_005 line 142). -/
def callGroqAux (f : Nat → ProviderResp) (maxRetries : Nat) :
    Nat → Nat → List Nat → List Nat → ClientOutcome
  | 0, _, calls, delays =>
    ClientOutcome.failure "Max retries exceeded without returning a result"
      none none calls delays
  | Nat.succ fuel, attempt, calls, delays =>
    let res := f attempt
    let calls := calls ++ [attempt]
    if respOk res.status then
      match jsonParse res.body with
      | some data => ClientOutcome.success (groqContentValue data) calls delays
      | none =>
        -- JSON.parse(responseText) threw; the catch retries or rethrows
        if attempt = maxRetries then
          ClientOutcome.failure "Groq did not return parseable JSON"
            (some res.body) none calls delays
        else
          callGroqAux f maxRetries fuel (attempt + 1) calls
            (delays ++ [2000 * attempt])
    else
      if 500 ≤ res.status && attempt < maxRetries then
        callGroqAux f maxRetries fuel (attempt + 1) calls
          (delays ++ [2000 * attempt])
      else
        -- throw error with rawResponse/statusCode attached, then the catch
        if attempt = maxRetries then
          ClientOutcome.failure ("Groq API failed: " ++ res.body)
            (some res.body) (some res.status) calls delays
        else
          callGroqAux f maxRetries fuel (attempt + 1) calls
            (delays ++ [2000 * attempt])

def callGroqWithText (f : Nat → ProviderResp) : ClientOutcome :=
  callGroqAux f 3 3 1 [] []

/-- The for-loop of callGeminiWithText (part_004 lines 311-347): same control
flow as the Groq client, but the success value is the candidates path and the
thrown Error only carries the provider body inside its message. -/
def callGeminiAux (f : Nat → ProviderResp) (maxRetries : Nat) :
    Nat → Nat → List Nat → List Nat → ClientOutcome
  | 0, _, calls, delays =>
    ClientOutcome.failure "loop exhausted" none none calls delays
  | Nat.succ fuel, attempt, calls, delays =>
    let res := f attempt
    let calls := calls ++ [attempt]
    if respOk res.status then
      match jsonParse res.body with
      | some data => ClientOutcome.success (geminiContentValue data) calls delays
      | none =>
        if attempt = maxRetries then
          ClientOutcome.failure "Gemini did not return parseable JSON"
            none none calls delays
        else
          callGeminiAux f maxRetries fuel (attempt + 1) calls
            (delays ++ [2000 * attempt])
    else
      if 500 ≤ res.status && attempt < maxRetries then
        callGeminiAux f maxRetries fuel (attempt + 1) calls
          (delays ++ [2000 * attempt])
      else
        if attempt = maxRetries then
          ClientOutcome.failure ("Gemini API failed: " ++ res.body)
            none none calls delays
        else
          callGeminiAux f maxRetries fuel (attempt + 1) calls
            (delays ++ [2000 * attempt])

def callGeminiWithText (f : Nat → ProviderResp) : ClientOutcome :=
  callGeminiAux f 3 3 1 [] []

/- ## Models of the two fixed regular expressions -/

/-- First index at which pat occurs as a contiguous sublist of cs. -/
def findSubstrIdx (pat cs : List Char) : Option Nat :=
  (List.range (cs.length + 1)).find? (fun i => (cs.drop i).take pat.length = pat)

def backtickChar : Char := Char.ofNat 96

def fenceOpenPat : List Char :=
  [backtickChar, backtickChar, backtickChar, 'j', 's', 'o', 'n']

def fenceClosePat : List Char :=
  [backtickChar, backtickChar, backtickChar]

/-- Capture group of the regex matching a json fenced code block in part_004
line 631, already trimmed (the lazy body together with the surrounding
whitespace classes makes the capture equal to the trimmed text between the
first opening fence and the next closing fence).  The source additionally
trims the capture before parsing, so working with the trimmed capture is
observationally identical. -/
def fenceCapture (s : String) : Option String :=
  let cs := s.data
  match findSubstrIdx fenceOpenPat cs with
  | none => none
  | some i =>
    let rest := cs.drop (i + fenceOpenPat.length)
    match findSubstrIdx fenceClosePat rest with
    | none => none
    | some j => some (trimStr (String.mk (rest.take j)))

/-- Does cs start with an opening bracket, optional whitespace and an opening
brace? -/
def startsArrObj : List Char → Bool
  | '[' :: rest =>
    match skipWsL rest with
    | '{' :: _ => true
    | _ => false
  | _ => false

/-- Does cs end with a closing brace, optional whitespace, closing bracket? -/
def endsObjArr (cs : List Char) : Bool :=
  match cs.reverse with
  | ']' :: rest =>
    match skipWsL rest with
    | '}' :: _ => true
    | _ => false
  | _ => false

/-- Model of s.match on the array-extraction regex of the sources (an opening
bracket, whitespace, an opening brace, any characters, a closing brace,
whitespace, a closing bracket): leftmost match start, then the longest end,
reflecting the greedy any-characters part. -/
def arrayMatch (s : String) : Option String :=
  let cs := s.data
  match (List.range cs.length).find? (fun i => startsArrObj (cs.drop i)) with
  | none => none
  | some i =>
    let tail := cs.drop i
    match (List.range (tail.length + 1)).reverse.find?
        (fun len => endsObjArr (tail.take len)) with
    | none => none
    | some len => some (String.mk (tail.take len))

/- ## Response extraction (the normalizer) -/

/-- The part_004 extraction (lines 623-646): direct JSON.parse, else the
fenced-block capture when its trimmed text is nonempty, else the bracketed
array pattern; both fallback failures surface as the single rethrown error of
the inner catch.  The later Array.isArray check of the handler is kept
separate, as in the source. -/
def extractJson4 (geminiRaw : String) : Except String Json :=
  match jsonParse geminiRaw with
  | some j => Except.ok j
  | none =>
    let candidate : Option String :=
      match fenceCapture geminiRaw with
      | some cap => if cap.isEmpty then arrayMatch geminiRaw else some cap
      | none => arrayMatch geminiRaw
    match candidate with
    | some s =>
      match jsonParse s with
      | some j => Except.ok j
      | none =>
        Except.error ("Gemini did not return valid JSON. Raw response: " ++ geminiRaw)
    | none =>
      Except.error ("Gemini did not return valid JSON. Raw response: " ++ geminiRaw)

/-- The wrapper-key search of the Groq handlers (generate-mcqs-groq lines
236-252, part_005 lines 456-472): mcqs starts as the empty array, the first
array value among the fixed keys is taken, and if the result is still empty
the first array value of the object is taken. -/
def groqObjectScan (fields : List (String × Json)) : List Json :=
  let possibleKeys := ["mcqs", "questions", "items", "data", "results", "array"]
  let fromKeys : List Json :=
    match possibleKeys.findSome? (fun k =>
      match (fields.find? (fun p => p.1 = k)).map Prod.snd with
      | some (Json.arr xs) => some xs
      | _ => none) with
    | some xs => xs
    | none => []
  if fromKeys.length = 0 then
    match fields.findSome? (fun p =>
      match p.2 with
      | Json.arr xs => some xs
      | _ => none) with
    | some xs => xs
    | none => []
  else fromKeys

/-- A thrown extraction error of the Groq handlers: message and the attached
rawResponse field. -/
structure GroqErr where
  msg : String
  rawResponse : String
deriving DecidableEq, Repr

/-- MCQ extraction of the Groq handlers (generate-mcqs-groq lines 224-281,
part_005 lines 444-501).  An empty scan result, like a non-array non-object
parse, throws inside the first try block and lands in the regex fallback;
every fallback failure is rethrown by the innermost catch as the single
"Groq did not return valid JSON" error carrying the raw text. -/
def extractMcqsGroq (groqRaw : String) : Except GroqErr (List Json) :=
  let direct : Option (List Json) :=
    match jsonParse groqRaw with
    | some (Json.arr xs) => some xs
    | some (Json.obj fields) =>
      let scanned := groqObjectScan fields
      if scanned.length = 0 then none else some scanned
    | some _ => none
    | none => none
  match direct with
  | some xs => Except.ok xs
  | none =>
    match arrayMatch groqRaw with
    | some seg =>
      match jsonParse seg with
      | some (Json.arr xs) => Except.ok xs
      | some j =>
        -- the regex guarantees a bracketed text, so a successful parse is an
        -- array; this branch is unreachable but mirrors the assignment
        match j with
        | _ => Except.error { msg := "Groq did not return valid JSON",
                              rawResponse := groqRaw }
      | none =>
        Except.error { msg := "Groq did not return valid JSON",
                       rawResponse := groqRaw }
    | none =>
      Except.error { msg := "Groq did not return valid JSON",
                     rawResponse := groqRaw }
/- ## Request lifecycle events (for ordering statements) -/

inductive Event where
  | globalCheck : Event
  | authHeader : Event
  | authVerify : Event
  | tierResolve : Event
  | userCheck : Event
  | bodyParse : Event
  | cacheLookup : Event
  | providerCall : Event
  | normalize : Event
  | commitUsage : Event
  | cacheStore : Event
deriving DecidableEq, Repr

/- ## HTTP responses of the handlers

Only the JSON body fields that the claims inspect are modelled; the
development-mode message rewriting of the catch blocks is not (the claims only
look at status codes, ok flags and the structured fields). -/

structure HttpResponse where
  status : Nat
  ok : Bool
  error : Option String
  mcqs : Option (List Json)
  count : Option Nat
  cached : Option Bool
  userSubscription : Option Tier
  userRemaining : Option Nat
  userResetTime : Option Nat
  rawApiResponse : Option String
  upstreamStatus : Option Nat

def errorResponse (status : Nat) (msg : String) : HttpResponse :=
  { status := status, ok := false, error := some msg, mcqs := none,
    count := none, cached := none, userSubscription := none,
    userRemaining := none, userResetTime := none, rawApiResponse := none,
    upstreamStatus := none }

/-- Result of one handler invocation: the response, the ordered trace of
lifecycle events the handler evaluated, and the side effects it performed. -/
structure HandlerResult where
  response : HttpResponse
  trace : List Event
  providerCalled : Bool
  userIncremented : Bool
  globalIncremented : Bool
  cacheStored : Bool
  cacheHit : Bool

/-- JS string truthiness of an optional string: undefined and the empty
string are falsy. -/
def strTruthy (o : Option String) : Option String :=
  match o with
  | some s => if s.isEmpty then none else some s
  | none => none

/- ## The part_004 handler (Gemini pipeline, Deno.serve lines 418-715)

External collaborators appear as environment fields: the auth verification
outcome, the resolved subscription (getUserSubscription never throws and
defaults to FREE), the usage snapshot, and the outcome of the Gemini client
call (a raw text, or the message of the error it threw). -/

structure GeminiEnv where
  method : String
  globalUsageCount : Nat
  globalUsageResetTime : Nat
  now : Nat
  authHeaderBearer : Bool
  authUser : Option String
  subscription : Tier
  usage : UsageStats
  file_data : Option String
  mime_type : Option String
  text_content : Option String
  cache : CacheMap
  providerResult : Except String String

/-- The content handed to generateFileHash: text_content || file_data! . -/
def geminiHashContent (env : GeminiEnv) : String :=
  match strTruthy env.text_content with
  | some t => t
  | none =>
    match env.file_data with
    | some f => f
    | none => ""

def handleGemini (env : GeminiEnv) : HandlerResult :=
  if env.method ≠ "POST" then
    { response := errorResponse 405 "Method not allowed", trace := [],
      providerCalled := false, userIncremented := false,
      globalIncremented := false, cacheStored := false, cacheHit := false }
  else
    -- 1. global usage limit first
    let globalUsage :=
      (checkGlobalUsage env.globalUsageCount env.globalUsageResetTime env.now).1
    if globalUsage.allowed = false then
      { response := errorResponse 503
          "Service temporarily unavailable. Monthly limit reached.",
        trace := [Event.globalCheck], providerCalled := false,
        userIncremented := false, globalIncremented := false,
        cacheStored := false, cacheHit := false }
    -- 2. Authorization header
    else if env.authHeaderBearer = false then
      { response := errorResponse 401 "Unauthorized: Missing or invalid token",
        trace := [Event.globalCheck, Event.authHeader],
        providerCalled := false, userIncremented := false,
        globalIncremented := false, cacheStored := false, cacheHit := false }
    else
      -- 3. verify user from token
      match env.authUser with
      | none =>
        { response := errorResponse 401 "Unauthorized: Invalid token",
          trace := [Event.globalCheck, Event.authHeader, Event.authVerify],
          providerCalled := false, userIncremented := false,
          globalIncremented := false, cacheStored := false, cacheHit := false }
      | some _user =>
        -- 4. subscription and per-user limits
        let subscription := env.subscription
        let userLimits := checkUserLimits subscription env.usage
        if userLimits.allowed = false then
          { response :=
              { status := 429, ok := false,
                error := some "Daily limit reached.", mcqs := none,
                count := none, cached := none,
                userSubscription := some subscription,
                userRemaining := some 0,
                userResetTime := some userLimits.resetTime,
                rawApiResponse := none, upstreamStatus := none },
            trace := [Event.globalCheck, Event.authHeader, Event.authVerify,
                      Event.tierResolve, Event.userCheck],
            providerCalled := false, userIncremented := false,
            globalIncremented := false, cacheStored := false, cacheHit := false }
        -- 5. request body validation
        else if (strTruthy env.file_data).isNone
            && (strTruthy env.text_content).isNone then
          { response := errorResponse 400
              "Either file_data or text_content is required",
            trace := [Event.globalCheck, Event.authHeader, Event.authVerify,
                      Event.tierResolve, Event.userCheck, Event.bodyParse],
            providerCalled := false, userIncremented := false,
            globalIncremented := false, cacheStored := false, cacheHit := false }
        else if (strTruthy env.file_data).isSome
            && (strTruthy env.mime_type).isNone then
          { response := errorResponse 400
              "mime_type is required when file_data is provided",
            trace := [Event.globalCheck, Event.authHeader, Event.authVerify,
                      Event.tierResolve, Event.userCheck, Event.bodyParse],
            providerCalled := false, userIncremented := false,
            globalIncremented := false, cacheStored := false, cacheHit := false }
        else
          -- 6./7. content hash and cache lookup
          let contentHash := generateFileHash (geminiHashContent env)
          match (getCachedMCQs env.cache contentHash env.now).1 with
          | some cachedMCQs =>
            { response :=
                { status := 200, ok := true, error := none,
                  mcqs := some cachedMCQs, count := some cachedMCQs.length,
                  cached := some true, userSubscription := some subscription,
                  userRemaining := some userLimits.remaining,
                  userResetTime := some userLimits.resetTime,
                  rawApiResponse := none, upstreamStatus := none },
              trace := [Event.globalCheck, Event.authHeader, Event.authVerify,
                        Event.tierResolve, Event.userCheck, Event.bodyParse,
                        Event.cacheLookup],
              providerCalled := false, userIncremented := false,
              globalIncremented := false, cacheStored := false,
              cacheHit := true }
          | none =>
            -- 8. call Gemini
            match env.providerResult with
            | Except.error msg =>
              { response := errorResponse 500 msg,
                trace := [Event.globalCheck, Event.authHeader,
                          Event.authVerify, Event.tierResolve, Event.userCheck,
                          Event.bodyParse, Event.cacheLookup,
                          Event.providerCall],
                providerCalled := true, userIncremented := false,
                globalIncremented := false, cacheStored := false,
                cacheHit := false }
            | Except.ok geminiRaw =>
              match extractJson4 geminiRaw with
              | Except.error emsg =>
                { response := errorResponse 500 emsg,
                  trace := [Event.globalCheck, Event.authHeader,
                            Event.authVerify, Event.tierResolve,
                            Event.userCheck, Event.bodyParse,
                            Event.cacheLookup, Event.providerCall,
                            Event.normalize],
                  providerCalled := true, userIncremented := false,
                  globalIncremented := false, cacheStored := false,
                  cacheHit := false }
              | Except.ok j =>
                match j with
                | Json.arr mcqs =>
                  -- 9./10. increment counters, cache, respond
                  { response :=
                      { status := 200, ok := true, error := none,
                        mcqs := some mcqs, count := some mcqs.length,
                        cached := some false,
                        userSubscription := some subscription,
                        userRemaining := some (userLimits.remaining - 1),
                        userResetTime := some userLimits.resetTime,
                        rawApiResponse := none, upstreamStatus := none },
                    trace := [Event.globalCheck, Event.authHeader,
                              Event.authVerify, Event.tierResolve,
                              Event.userCheck, Event.bodyParse,
                              Event.cacheLookup, Event.providerCall,
                              Event.normalize, Event.commitUsage,
                              Event.cacheStore],
                    providerCalled := true, userIncremented := true,
                    globalIncremented := true, cacheStored := true,
                    cacheHit := false }
                | _ =>
                  { response := errorResponse 500
                      ("Gemini response is not an array: " ++ geminiRaw),
                    trace := [Event.globalCheck, Event.authHeader,
                              Event.authVerify, Event.tierResolve,
                              Event.userCheck, Event.bodyParse,
                              Event.cacheLookup, Event.providerCall,
                              Event.normalize],
                    providerCalled := true, userIncremented := false,
                    globalIncremented := false, cacheStored := false,
                    cacheHit := false }

/- ## The part_005 handler (Groq pipeline with per-user quota,
Deno.serve lines 313-585) -/

/-- An error thrown by callGroqWithText, as the handler catch sees it. -/
structure GroqClientErr where
  msg : String
  rawResponse : Option String
  statusCode : Option Nat

structure GroqEnv where
  method : String
  authHeaderBearer : Bool
  authUser : Option String
  subscription : Tier
  usage : UsageStats
  text_content : Option String
  text_chunks : Option (List Json)
  providerResult : Except GroqClientErr String
  now : Nat

/-- The chunk sanitisation of part_005 lines 390-394: keep the string chunks,
trim them, drop the empty ones. -/
def sanitizeChunks (chunks : Option (List Json)) : List String :=
  match chunks with
  | none => []
  | some cs =>
    ((cs.filterMap (fun c =>
        match c with
        | Json.str s => some s
        | _ => none)).map trimStr).filter (fun s => ¬ s.isEmpty)

def handleGroq5 (env : GroqEnv) : HandlerResult :=
  if env.method ≠ "POST" then
    { response := errorResponse 405 "Method not allowed", trace := [],
      providerCalled := false, userIncremented := false,
      globalIncremented := false, cacheStored := false, cacheHit := false }
  else if env.authHeaderBearer = false then
    { response := errorResponse 401 "Unauthorized: Missing or invalid token",
      trace := [Event.authHeader], providerCalled := false,
      userIncremented := false, globalIncremented := false,
      cacheStored := false, cacheHit := false }
  else
    match env.authUser with
    | none =>
      { response := errorResponse 401 "Unauthorized: Invalid token",
        trace := [Event.authHeader, Event.authVerify],
        providerCalled := false, userIncremented := false,
        globalIncremented := false, cacheStored := false, cacheHit := false }
    | some _user =>
      let subscription := env.subscription
      let userLimits := checkUserLimits subscription env.usage
      if userLimits.allowed = false then
        { response :=
            { status := 429, ok := false,
              error := some "Daily limit reached.", mcqs := none,
              count := none, cached := none,
              userSubscription := some subscription,
              userRemaining := some 0,
              userResetTime := some userLimits.resetTime,
              rawApiResponse := none, upstreamStatus := none },
          trace := [Event.authHeader, Event.authVerify, Event.tierResolve,
                    Event.userCheck],
          providerCalled := false, userIncremented := false,
          globalIncremented := false, cacheStored := false, cacheHit := false }
      else
        let sanitizedChunks := sanitizeChunks env.text_chunks
        let primaryText := env.text_content.map trimStr
        if ((strTruthy primaryText).isNone) && sanitizedChunks.isEmpty then
          { response := errorResponse 400
              "text_content or text_chunks is required",
            trace := [Event.authHeader, Event.authVerify, Event.tierResolve,
                      Event.userCheck, Event.bodyParse],
            providerCalled := false, userIncremented := false,
            globalIncremented := false, cacheStored := false,
            cacheHit := false }
        else
          match env.providerResult with
          | Except.error e =>
            { response :=
                { status := 500, ok := false, error := some e.msg,
                  mcqs := none, count := none, cached := none,
                  userSubscription := none, userRemaining := none,
                  userResetTime := none, rawApiResponse := e.rawResponse,
                  upstreamStatus := e.statusCode },
              trace := [Event.authHeader, Event.authVerify, Event.tierResolve,
                        Event.userCheck, Event.bodyParse, Event.providerCall],
              providerCalled := true, userIncremented := false,
              globalIncremented := false, cacheStored := false,
              cacheHit := false }
          | Except.ok groqRaw =>
            match extractMcqsGroq groqRaw with
            | Except.error ge =>
              { response :=
                  { status := 500, ok := false, error := some ge.msg,
                    mcqs := none, count := none, cached := none,
                    userSubscription := none, userRemaining := none,
                    userResetTime := none,
                    rawApiResponse := some ge.rawResponse,
                    upstreamStatus := none },
                trace := [Event.authHeader, Event.authVerify,
                          Event.tierResolve, Event.userCheck, Event.bodyParse,
                          Event.providerCall, Event.normalize],
                providerCalled := true, userIncremented := false,
                globalIncremented := false, cacheStored := false,
                cacheHit := false }
            | Except.ok mcqs =>
              -- increment AFTER successful generation, then respond
              { response :=
                  { status := 200, ok := true, error := none,
                    mcqs := some mcqs, count := some mcqs.length,
                    cached := none, userSubscription := some subscription,
                    userRemaining := some (userLimits.remaining - 1),
                    userResetTime := some userLimits.resetTime,
                    rawApiResponse := none, upstreamStatus := none },
                trace := [Event.authHeader, Event.authVerify,
                          Event.tierResolve, Event.userCheck, Event.bodyParse,
                          Event.providerCall, Event.normalize,
                          Event.commitUsage],
                providerCalled := true, userIncremented := true,
                globalIncremented := false, cacheStored := false,
                cacheHit := false }
/- ## Definitions supporting the claims -/

/-- The part_004 handler produced no MCQ array from the raw provider text:
either every extraction strategy failed or the extracted JSON is not an
array. -/
def noMcqArray (raw : String) : Bool :=
  match extractJson4 raw with
  | Except.ok (Json.arr _) => false
  | _ => true

/-- Spec-side MCQ invariant (spec section 3): the record has exactly 4
options and an answer index in the range 0..3. -/
def mcqInvariant (j : Json) : Bool :=
  match getField j "options" with
  | some (Json.arr os) =>
    (os.length = 4) &&
    (match getField j "answer_index" with
     | some (Json.num k) => (0 ≤ k) && (k ≤ 3)
     | _ => false)
  | _ => false

/-- A provider that rejects every attempt with a 400 and a diagnostic body. -/
def alwaysBadRequest : Nat → ProviderResp := fun _ =>
  { status := 400, body := "bad request body" }

/-- A provider that fails twice with 500 and then answers 200 with a Groq
envelope whose content is the string payload. -/
def flaky500 : Nat → ProviderResp := fun i =>
  if i ≤ 2 then { status := 500, body := "server exploded" }
  else { status := 200,
         body := "\x7b\"choices\":[\x7b\"message\":\x7b\"content\":\"payload\"\x7d\x7d]\x7d" }

/-- The parsed form of the flaky500 success envelope. -/
def flakyEnvelope : Json :=
  Json.obj [("choices", Json.arr
    [Json.obj [("message", Json.obj [("content", Json.str "payload")])]])]

/-- A provider that answers 500 on every attempt. -/
def always500 : Nat → ProviderResp := fun _ =>
  { status := 500, body := "server exploded" }

/-- A successful Groq HTTP envelope with no content field at all. -/
def noContentEnvelope : String := "\x7b\"choices\":[]\x7d"

/-- A provider whose single kind of answer is 200 with the no-content
envelope. -/
def noContentProvider : Nat → ProviderResp := fun _ =>
  { status := 200, body := noContentEnvelope }

/-- Raw provider text whose single MCQ violates the invariant (1 option,
answer index 7). -/
def rawC4 : String :=
  "[\x7b\"question\":\"Q\",\"options\":[\"A\"],\"answer_index\":7\x7d]"

/-- The parsed form of the single element of rawC4. -/
def mcqC4 : Json :=
  Json.obj [("question", Json.str "Q"),
            ("options", Json.arr [Json.str "A"]),
            ("answer_index", Json.num 7)]

/-- Request environment for a provider that throws: POST, capacity free,
authenticated FREE user below quota, text content, empty cache. -/
def envC2 : GeminiEnv :=
  { method := "POST", globalUsageCount := 0, globalUsageResetTime := 10,
    now := 5, authHeaderBearer := true, authUser := some "u1",
    subscription := Tier.FREE,
    usage := { uploads_today := 0, daily_reset_at := 99 },
    file_data := none, mime_type := none, text_content := some "hello",
    cache := [], providerResult := Except.error "Gemini API failed: boom" }

/-- Admitted request whose provider output is rawC4. -/
def envC4 : GeminiEnv :=
  { method := "POST", globalUsageCount := 0, globalUsageResetTime := 10,
    now := 5, authHeaderBearer := true, authUser := some "u1",
    subscription := Tier.FREE,
    usage := { uploads_today := 0, daily_reset_at := 99 },
    file_data := none, mime_type := none, text_content := some "notes",
    cache := [], providerResult := Except.ok rawC4 }

/-- A POST request with no bearer token while the global counter sits at the
ceiling inside its window. -/
def envC5 : GeminiEnv :=
  { method := "POST", globalUsageCount := 500000, globalUsageResetTime := 1000,
    now := 500, authHeaderBearer := false, authUser := none,
    subscription := Tier.FREE,
    usage := { uploads_today := 0, daily_reset_at := 99 },
    file_data := none, mime_type := none, text_content := some "hello",
    cache := [], providerResult := Except.error "unused" }

/-- The condition under which checkGlobalUsage rejects: the window has not
lapsed and the counter has reached the ceiling. -/
def globalExhausted (env : GeminiEnv) : Bool :=
  !(env.globalUsageResetTime < env.now)
    && (MAX_GLOBAL_USAGE ≤ env.globalUsageCount)

/-- The MCQ list stored in the cache of envC6. -/
def cachedListC6 : List Json := [Json.str "cached-mcq"]

/-- Admitted request whose content is already cached (stored at the same
instant, hence unexpired). -/
def envC6 : GeminiEnv :=
  { method := "POST", globalUsageCount := 0, globalUsageResetTime := 10,
    now := 5, authHeaderBearer := true, authUser := some "u1",
    subscription := Tier.PRO,
    usage := { uploads_today := 1, daily_reset_at := 99 },
    file_data := none, mime_type := none, text_content := some "hi",
    cache := [(generateFileHash "hi", { mcqs := cachedListC6, timestamp := 5 })],
    providerResult := Except.error "unused" }

/-- Admitted part_005 request whose provider content is the literal empty
array. -/
def envC9 : GroqEnv :=
  { method := "POST", authHeaderBearer := true, authUser := some "u1",
    subscription := Tier.FREE,
    usage := { uploads_today := 0, daily_reset_at := 99 },
    text_content := some "hello", text_chunks := none,
    providerResult := Except.ok "[]", now := 0 }

/-- The wrapper object whose only array value is empty. -/
def wrapperRaw : String := "\x7b\"mcqs\": []\x7d"

/-- Admitted part_005 request whose provider content is the empty array
literal. -/
def envC10good : GroqEnv :=
  { method := "POST", authHeaderBearer := true, authUser := some "u2",
    subscription := Tier.FREE,
    usage := { uploads_today := 0, daily_reset_at := 99 },
    text_content := some "material", text_chunks := none,
    providerResult := Except.ok "[]", now := 0 }

/-- Admitted part_005 request whose provider content is the empty wrapper
object. -/
def envC10bad : GroqEnv :=
  { method := "POST", authHeaderBearer := true, authUser := some "u2",
    subscription := Tier.FREE,
    usage := { uploads_today := 0, daily_reset_at := 99 },
    text_content := some "material", text_chunks := none,
    providerResult := Except.ok wrapperRaw, now := 0 }

/- ## Helper lemmas -/

lemma mapGet_cacheMCQs (cache : CacheMap) (f : String) (m : List Json)
    (t : Nat) :
    mapGet (cacheMCQs cache f m t) f = some { mcqs := m, timestamp := t } := by
  simp only [cacheMCQs, mapSet]
  split
  · rw [List.filter_cons]
    simp only [Nat.sub_self, CACHE_DURATION]
    norm_num
    simp [mapGet]
  · simp [mapGet]

lemma mapGet_mapDelete (c : CacheMap) (k : String) :
    mapGet (mapDelete c k) k = none := by
  induction c with
  | nil => rfl
  | cons p rest ih =>
    simp only [mapDelete, List.filter_cons, ne_eq, decide_not] at ih ⊢
    by_cases hk : p.1 = k
    · simpa [hk] using ih
    · simpa [mapGet, hk] using ih

lemma checkGlobalUsage_allowed_iff (c r n : Nat) :
    ((checkGlobalUsage c r n).1.allowed = false)
      ↔ (¬ r < n ∧ MAX_GLOBAL_USAGE ≤ c) := by
  simp only [checkGlobalUsage]
  by_cases h : r < n
  · simp [h, MAX_GLOBAL_USAGE]
  · simp only [h, if_false]
    split <;> simp_all

/- ## Claims -/

/-- Claim C1: for every usage snapshot and both tiers, checkUserLimits rejects
exactly when the stored uploads_today has reached the tier daily limit
(FREE 5, PRO 50); on admit remaining is dailyLimit - uploads_today, on reject
remaining is 0; resetTime always comes from the snapshot daily_reset_at; at
the boundary, uploads_today = dailyLimit - 1 admits and = dailyLimit
rejects. -/
theorem checkUserLimits_boundary :
    ∀ (tier : Tier) (usage : UsageStats),
      ((checkUserLimits tier usage).allowed = true
        ↔ usage.uploads_today < daily_limit tier)
      ∧ ((checkUserLimits tier usage).remaining
        = if usage.uploads_today < daily_limit tier
          then daily_limit tier - usage.uploads_today else 0)
      ∧ ((checkUserLimits tier usage).resetTime = usage.daily_reset_at)
      ∧ (∀ r : Nat,
          (checkUserLimits tier
            { uploads_today := daily_limit tier - 1, daily_reset_at := r }).allowed
              = true
          ∧ (checkUserLimits tier
              { uploads_today := daily_limit tier - 1, daily_reset_at := r }).remaining
              = daily_limit tier - (daily_limit tier - 1)
          ∧ (checkUserLimits tier
              { uploads_today := daily_limit tier, daily_reset_at := r }).allowed
              = false
          ∧ (checkUserLimits tier
              { uploads_today := daily_limit tier, daily_reset_at := r }).remaining
              = 0
          ∧ (checkUserLimits tier
              { uploads_today := daily_limit tier, daily_reset_at := r }).resetTime
              = r) := by
  intro tier usage
  refine ⟨?_, ?_, ?_, fun r => ⟨?_, ?_, ?_, ?_, ?_⟩⟩ <;>
    cases tier <;>
    simp only [checkUserLimits, daily_limit] <;>
    split <;>
    simp_all

/-- Witness for checkUserLimits_boundary at the FREE boundary values 4
and 5. -/
theorem checkUserLimits_boundary_witness :
    (checkUserLimits Tier.FREE { uploads_today := 4, daily_reset_at := 7 }).allowed
      = true
    ∧ (checkUserLimits Tier.FREE { uploads_today := 5, daily_reset_at := 7 }).allowed
      = false := by
  have h := (checkUserLimits_boundary Tier.FREE
    { uploads_today := 4, daily_reset_at := 7 }).1
  have h2 := (checkUserLimits_boundary Tier.FREE
    { uploads_today := 5, daily_reset_at := 7 }).1
  refine ⟨h.mpr (by decide), ?_⟩
  cases hb : (checkUserLimits Tier.FREE
      { uploads_today := 5, daily_reset_at := 7 }).allowed
  · rfl
  · exact absurd (h2.mp hb) (by decide)

/-- Claim C2: user usage is committed only after normalization succeeds -
whenever the part_004 handler actually calls the provider and the call throws,
or the raw text yields no MCQ array, the handler answers an error (500) and
does not increment uploads_today; a request rejected with 429 does not
increment it either. -/
theorem commitUsage_requires_normalize :
    ∀ (env : GeminiEnv),
      (∀ msg : String, (handleGemini env).providerCalled = true →
          env.providerResult = Except.error msg →
          (handleGemini env).response.ok = false
          ∧ (handleGemini env).response.status = 500
          ∧ (handleGemini env).userIncremented = false)
      ∧ (∀ raw : String, (handleGemini env).providerCalled = true →
          env.providerResult = Except.ok raw →
          noMcqArray raw = true →
          (handleGemini env).response.ok = false
          ∧ (handleGemini env).response.status = 500
          ∧ (handleGemini env).userIncremented = false)
      ∧ ((handleGemini env).response.status = 429 →
          (handleGemini env).userIncremented = false) := by
  intro env
  simp only [handleGemini]
  repeat' split
  all_goals simp_all [errorResponse, noMcqArray]

/-- Witness for commitUsage_requires_normalize: a concrete admitted request
whose provider call throws is answered 500 and commits no usage. -/
theorem commitUsage_requires_normalize_witness :
    (handleGemini envC2).providerCalled = true
    ∧ envC2.providerResult = Except.error "Gemini API failed: boom"
    ∧ (handleGemini envC2).response.status = 500
    ∧ (handleGemini envC2).userIncremented = false := by
  have h := (commitUsage_requires_normalize envC2).1 "Gemini API failed: boom"
    (by rfl) (by rfl)
  exact ⟨by rfl, by rfl, h.2.1, h.2.2⟩
/-- Claim C3 counterexample: a provider answering 400 on every attempt is
called three times, not once - the 4xx throw is re-caught by the generic
retry handler of the loop, so the claimed fail-immediately behaviour does not
hold (the final error does carry the provider error body). -/
theorem fourxx_is_retried_counterexample :
    callGroqWithText alwaysBadRequest
      = ClientOutcome.failure "Groq API failed: bad request body"
          (some "bad request body") (some 400) [1, 2, 3] [2000, 4000]
    ∧ outcomeCalls (callGroqWithText alwaysBadRequest) ≠ [1] := by
  constructor
  · rfl
  · decide

/-- Claim C3 (amended): on a provider that answers a 4xx on every attempt,
both generation clients issue three calls with backoff 2000*attempt (the 4xx
throw lands in the catch that retries until the final attempt) and then fail
with an error carrying the provider error body - as rawResponse/statusCode
for the Groq client and inside the message for the Gemini client. -/
theorem fourxx_retry_surfaces_error_body :
    ∀ (f : Nat → ProviderResp),
      (∀ i, 1 ≤ i → i ≤ 3 → 400 ≤ (f i).status ∧ (f i).status < 500) →
      callGroqWithText f
        = ClientOutcome.failure ("Groq API failed: " ++ (f 3).body)
            (some ((f 3).body)) (some ((f 3).status)) [1, 2, 3] [2000, 4000]
      ∧ callGeminiWithText f
        = ClientOutcome.failure ("Gemini API failed: " ++ (f 3).body)
            none none [1, 2, 3] [2000, 4000] := by
  intro f h
  obtain ⟨a1, b1⟩ := h 1 (by omega) (by omega)
  obtain ⟨a2, b2⟩ := h 2 (by omega) (by omega)
  obtain ⟨a3, b3⟩ := h 3 (by omega) (by omega)
  have r1 : respOk (f 1).status = false := by simp [respOk]; omega
  have r2 : respOk (f 2).status = false := by simp [respOk]; omega
  have r3 : respOk (f 3).status = false := by simp [respOk]; omega
  have s1 : decide (500 ≤ (f 1).status) = false := by simp; omega
  have s2 : decide (500 ≤ (f 2).status) = false := by simp; omega
  have s3 : decide (500 ≤ (f 3).status) = false := by simp; omega
  constructor <;>
    simp [callGroqWithText, callGroqAux, callGeminiWithText, callGeminiAux,
      r1, r2, r3, s1, s2, s3]

/-- Witness for fourxx_retry_surfaces_error_body at the constant-400
provider. -/
theorem fourxx_retry_surfaces_error_body_witness :
    callGroqWithText alwaysBadRequest
      = ClientOutcome.failure ("Groq API failed: " ++ (alwaysBadRequest 3).body)
          (some ((alwaysBadRequest 3).body)) (some ((alwaysBadRequest 3).status))
          [1, 2, 3] [2000, 4000]
    ∧ callGeminiWithText alwaysBadRequest
      = ClientOutcome.failure ("Gemini API failed: " ++ (alwaysBadRequest 3).body)
          none none [1, 2, 3] [2000, 4000] :=
  fourxx_retry_surfaces_error_body alwaysBadRequest
    (fun i _ _ => ⟨by simp [alwaysBadRequest], by simp [alwaysBadRequest]⟩)

/-- Claim C7: both clients make up to 3 attempts with backoff 2000*attempt:
500 twice then 200 succeeds on the third attempt with that response payload
and delays [2000, 4000]; 500 on all three attempts fails after exactly the
three calls. -/
theorem retry_three_attempts_backoff :
    ∀ (f : Nat → ProviderResp),
      ((f 1).status = 500 → (f 2).status = 500 →
        ∀ d : Json, (f 3).status = 200 → jsonParse (f 3).body = some d →
          callGroqWithText f
            = ClientOutcome.success (groqContentValue d) [1, 2, 3] [2000, 4000]
          ∧ callGeminiWithText f
            = ClientOutcome.success (geminiContentValue d) [1, 2, 3] [2000, 4000])
      ∧ ((f 1).status = 500 → (f 2).status = 500 → (f 3).status = 500 →
          callGroqWithText f
            = ClientOutcome.failure ("Groq API failed: " ++ (f 3).body)
                (some ((f 3).body)) (some 500) [1, 2, 3] [2000, 4000]
          ∧ callGeminiWithText f
            = ClientOutcome.failure ("Gemini API failed: " ++ (f 3).body)
                none none [1, 2, 3] [2000, 4000]) := by
  intro f
  constructor
  · intro h1 h2 d h3 hd
    constructor <;>
      simp [callGroqWithText, callGroqAux, callGeminiWithText, callGeminiAux,
        respOk, h1, h2, h3, hd]
  · intro h1 h2 h3
    constructor <;>
      simp [callGroqWithText, callGroqAux, callGeminiWithText, callGeminiAux,
        respOk, h1, h2, h3]

/-- Witness for retry_three_attempts_backoff: the flaky provider succeeds on
attempt three with the envelope payload; the constant-500 provider fails after
three calls. -/
theorem retry_three_attempts_backoff_witness :
    callGroqWithText flaky500
      = ClientOutcome.success (groqContentValue flakyEnvelope) [1, 2, 3]
          [2000, 4000]
    ∧ callGroqWithText always500
      = ClientOutcome.failure ("Groq API failed: " ++ (always500 3).body)
          (some ((always500 3).body)) (some 500) [1, 2, 3] [2000, 4000] :=
  ⟨((retry_three_attempts_backoff flaky500).1 (by rfl) (by rfl)
      flakyEnvelope (by rfl) (by rfl)).1,
   ((retry_three_attempts_backoff always500).2 (by rfl) (by rfl) (by rfl)).1⟩
/-- Claim C4 counterexample: an admitted request whose provider output is a
single MCQ with one option and answer index 7 is answered ok:true with that
element in mcqs - no per-element validation of the MCQ invariants happens
before the response. -/
theorem invalid_mcq_accepted_counterexample :
    (handleGemini envC4).response.ok = true
    ∧ (handleGemini envC4).response.mcqs = some [mcqC4]
    ∧ mcqInvariant mcqC4 = false :=
  ⟨rfl, rfl, rfl⟩

/-- Claim C4 (amended): the only structural check before a successful response
is that the extracted JSON is an array - the mcqs field of an ok:true
response is exactly the extracted array, with no element dropped and no batch
rejection, so elements violating the MCQ invariants pass through. -/
theorem mcqs_returned_unvalidated :
    ∀ (env : GeminiEnv) (raw : String) (xs : List Json),
      (handleGemini env).providerCalled = true →
      env.providerResult = Except.ok raw →
      extractJson4 raw = Except.ok (Json.arr xs) →
      (handleGemini env).response.ok = true
      ∧ (handleGemini env).response.mcqs = some xs := by
  intro env raw xs
  simp only [handleGemini]
  repeat' split
  all_goals intros
  all_goals simp_all [errorResponse]

/-- Witness for mcqs_returned_unvalidated at the concrete invariant-violating
output. -/
theorem mcqs_returned_unvalidated_witness :
    (handleGemini envC4).response.ok = true
    ∧ (handleGemini envC4).response.mcqs = some [mcqC4] :=
  mcqs_returned_unvalidated envC4 rawC4 [mcqC4] (by rfl) (by rfl) (by rfl)

/-- Claim C5 counterexample: a POST request with no bearer token is answered
503, not 401, when the global counter sits at its ceiling - the part_004
handler checks global capacity before reading the Authorization header. -/
theorem global_before_auth_counterexample :
    envC5.authHeaderBearer = false
    ∧ (handleGemini envC5).response.status = 503
    ∧ (handleGemini envC5).response.status ≠ 401 :=
  ⟨rfl, rfl, by decide⟩

/-- Claim C5 (amended): the part_004 lifecycle evaluates GLOBAL_CHECK before
AUTH: every POST request records the global check as its first event; when
the lazily reset global counter has reached the ceiling, the handler answers
503 without evaluating the Authorization header or the token; the 401 for a
missing bearer token arises only once the global check has passed. -/
theorem global_check_precedes_auth :
    ∀ (env : GeminiEnv), env.method = "POST" →
      ((handleGemini env).trace.take 1 = [Event.globalCheck])
      ∧ (globalExhausted env = true →
          (handleGemini env).response.status = 503
          ∧ Event.authHeader ∉ (handleGemini env).trace
          ∧ Event.authVerify ∉ (handleGemini env).trace)
      ∧ (globalExhausted env = false → env.authHeaderBearer = false →
          (handleGemini env).response.status = 401) := by
  intro env hm
  simp only [handleGemini]
  repeat' split
  all_goals
    simp_all [errorResponse, globalExhausted, checkGlobalUsage_allowed_iff]

/-- Witness for global_check_precedes_auth at the exhausted-global,
missing-token request. -/
theorem global_check_precedes_auth_witness :
    (handleGemini envC5).trace.take 1 = [Event.globalCheck]
    ∧ (handleGemini envC5).response.status = 503
    ∧ Event.authHeader ∉ (handleGemini envC5).trace := by
  have h := global_check_precedes_auth envC5 (by rfl)
  exact ⟨h.1, (h.2.1 (by rfl)).1, (h.2.1 (by rfl)).2.1⟩

/-- Claim C6: a cache hit (an admitted request whose content hash matches an
unexpired entry) is answered ok:true with cached:true and exactly the cached
list, the provider is not called, and neither the user nor the global usage
counter is incremented. -/
theorem cache_hit_no_provider_no_commit :
    ∀ (env : GeminiEnv),
      (handleGemini env).cacheHit = true →
      (handleGemini env).response.ok = true
      ∧ (handleGemini env).response.cached = some true
      ∧ (handleGemini env).response.mcqs
          = (getCachedMCQs env.cache
              (generateFileHash (geminiHashContent env)) env.now).1
      ∧ (handleGemini env).providerCalled = false
      ∧ (handleGemini env).userIncremented = false
      ∧ (handleGemini env).globalIncremented = false := by
  intro env
  simp only [handleGemini]
  repeat' split
  all_goals simp_all [errorResponse]

/-- Witness for cache_hit_no_provider_no_commit at a concrete request whose
content hash is stored unexpired. -/
theorem cache_hit_no_provider_no_commit_witness :
    (handleGemini envC6).cacheHit = true
    ∧ (handleGemini envC6).response.cached = some true
    ∧ (handleGemini envC6).providerCalled = false
    ∧ (handleGemini envC6).userIncremented = false := by
  have h := cache_hit_no_provider_no_commit envC6 (by rfl)
  exact ⟨by rfl, h.2.1, h.2.2.2.1, h.2.2.2.2.1⟩
/-- Claim C8: cache round-trip - storing under a fingerprint and looking it
up strictly within the 30-minute TTL returns exactly the stored list; once 30
minutes or more have elapsed the lookup returns none and the entry is deleted
from the returned cache. -/
theorem cache_roundtrip_ttl :
    ∀ (cache : CacheMap) (f : String) (m : List Json) (t tq : Nat),
      (tq - t < CACHE_DURATION →
        (getCachedMCQs (cacheMCQs cache f m t) f tq).1 = some m)
      ∧ (CACHE_DURATION ≤ tq - t →
        (getCachedMCQs (cacheMCQs cache f m t) f tq).1 = none
        ∧ mapGet (getCachedMCQs (cacheMCQs cache f m t) f tq).2 f = none) := by
  intro cache f m t tq
  constructor
  · intro h
    simp [getCachedMCQs, mapGet_cacheMCQs, h]
  · intro h
    have hnot : ¬ (tq - t < CACHE_DURATION) := by omega
    constructor
    · simp [getCachedMCQs, mapGet_cacheMCQs, hnot]
    · simp [getCachedMCQs, mapGet_cacheMCQs, hnot, mapGet_mapDelete]

/-- Witness for cache_roundtrip_ttl on the empty cache: a hit just after the
store and a miss exactly at the TTL. -/
theorem cache_roundtrip_ttl_witness :
    (getCachedMCQs (cacheMCQs [] "fp" [Json.num 1] 0) "fp" 10).1
      = some [Json.num 1]
    ∧ (getCachedMCQs (cacheMCQs [] "fp" [Json.num 1] 0) "fp" CACHE_DURATION).1
      = none := by
  have h1 := (cache_roundtrip_ttl [] "fp" [Json.num 1] 0 10).1 (by decide)
  have h2 := (cache_roundtrip_ttl [] "fp" [Json.num 1] 0 CACHE_DURATION).2
    (by simp [CACHE_DURATION])
  exact ⟨h1, h2.1⟩

/-- Claim C9: when a successful provider envelope lacks the content field the
client substitutes the literal "[]" (one call, no retries); the part_005
handler then completes ok:true with an empty mcqs list, count 0, and still
increments the user upload counter for the empty result. -/
theorem missing_content_empty_success :
    (∀ data : Json, groqContentPath data = none →
        groqContentValue data = Json.str "[]")
    ∧ (∀ (f : Nat → ProviderResp) (d : Json),
        respOk (f 1).status = true → jsonParse (f 1).body = some d →
        groqContentPath d = none →
        callGroqWithText f = ClientOutcome.success (Json.str "[]") [1] [])
    ∧ (∀ env : GroqEnv,
        (handleGroq5 env).providerCalled = true →
        env.providerResult = Except.ok "[]" →
        (handleGroq5 env).response.ok = true
        ∧ (handleGroq5 env).response.mcqs = some []
        ∧ (handleGroq5 env).response.count = some 0
        ∧ (handleGroq5 env).userIncremented = true) := by
  refine ⟨?_, ?_, ?_⟩
  · intro data hd
    simp [groqContentValue, hd]
  · intro f d h1 hd hpath
    simp [callGroqWithText, callGroqAux, h1, hd, groqContentValue, hpath]
  · intro env
    have hext : extractMcqsGroq "[]" = Except.ok ([] : List Json) := rfl
    simp only [handleGroq5]
    repeat' split
    all_goals intros
    all_goals simp_all [errorResponse]

/-- Witness for missing_content_empty_success: the concrete no-content
envelope provider and the concrete admitted request with provider content
"[]". -/
theorem missing_content_empty_success_witness :
    callGroqWithText noContentProvider
      = ClientOutcome.success (Json.str "[]") [1] []
    ∧ (handleGroq5 envC9).response.count = some 0
    ∧ (handleGroq5 envC9).userIncremented = true := by
  have h2 := missing_content_empty_success.2.1 noContentProvider
    (Json.obj [("choices", Json.arr [])]) (by rfl) (by rfl) (by rfl)
  have h3 := missing_content_empty_success.2.2 envC9 (by rfl) (by rfl)
  exact ⟨h2, h3.2.2.1, h3.2.2.2⟩

/-- Claim C10: the normalizer of the Groq handlers is asymmetric at the empty
boundary: the raw text "[]" parses to the empty MCQ list and the request
succeeds with count 0, while the wrapper object with only an empty array
value is treated as not found (the scan requires a nonempty result), every
fallback fails, and the request ends 500 with the raw text attached. -/
theorem empty_array_vs_empty_wrapper :
    extractMcqsGroq "[]" = Except.ok []
    ∧ extractMcqsGroq wrapperRaw
        = Except.error { msg := "Groq did not return valid JSON",
                         rawResponse := wrapperRaw }
    ∧ (handleGroq5 envC10good).response.ok = true
    ∧ (handleGroq5 envC10good).response.count = some 0
    ∧ (handleGroq5 envC10good).userIncremented = true
    ∧ (handleGroq5 envC10bad).response.status = 500
    ∧ (handleGroq5 envC10bad).response.ok = false
    ∧ (handleGroq5 envC10bad).response.rawApiResponse = some wrapperRaw
    ∧ (handleGroq5 envC10bad).userIncremented = false :=
  ⟨rfl, rfl, rfl, rfl, rfl, rfl, rfl, rfl, rfl⟩
end Brainlot
